import Mathlib

set_option maxRecDepth 8000

namespace Dispatch

/-- Reply constant `msgBadFmt = "BAD_FORMAT\r\n"` from src/main.go. -/
def msgBadFmt : List Char := "BAD_FORMAT\r\n".toList

/-- Reply constant `msgUnknownCommand = "UNKNOWN_COMMAND\r\n"` from src/main.go. -/
def msgUnknownCommand : List Char := "UNKNOWN_COMMAND\r\n".toList

/-- Reply constant `msgExpectedCRLF = "EXPECTED_CRLF\r\n"` from src/main.go. -/
def msgExpectedCRLF : List Char := "EXPECTED_CRLF\r\n".toList

/-- Rendering of `msgInsertedFmt = "INSERTED %d\r\n"` applied to an id. -/
def msgInsertedFmt (id : Nat) : List Char := ("INSERTED " ++ toString id ++ "\r\n").toList

/-- The line terminator sequence CR LF. -/
def crlf : List Char := ['\r', '\n']

/-- Command kinds, mirroring `opType` and its constants in src/main.go. -/
inductive OpType where
  | put
  | stats
  | use
  | quit
  | unknown
  deriving DecidableEq, Repr

/-- Keyword bytes `cmdPut = "put "`. -/
def cmdPut : List Char := "put ".toList

/-- Keyword bytes `cmdStats = "stats"`. -/
def cmdStats : List Char := "stats".toList

/-- Keyword bytes `cmdUse = "use "`. -/
def cmdUse : List Char := "use ".toList

/-- Length of the `use ` keyword, `cmdUseLen`. -/
def cmdUseLen : Nat := cmdUse.length

/-- Keyword bytes `cmdQuit = "quit"`. -/
def cmdQuit : List Char := "quit".toList

/-- `bytes.HasPrefix s p`: the first `p.length` elements of `s` equal `p`. -/
def startsWith (p s : List Char) : Bool := s.take p.length == p

/-- `bytes.HasSuffix s suf`: the last `suf.length` elements of `s` equal `suf`. -/
def endsWith (suf s : List Char) : Bool := s.drop (s.length - suf.length) == suf

/-- `whichCmd` from src/main.go: prefix classification of a command line,
tried in order `put `, `stats`, `use `, `quit`. -/
def whichCmd (cmd : List Char) : OpType :=
  if startsWith cmdPut cmd then .put
  else if startsWith cmdStats cmd then .stats
  else if startsWith cmdUse cmd then .use
  else if startsWith cmdQuit cmd then .quit
  else .unknown

/-- The `stats` struct of src/main.go (`globalStat`'s type). -/
structure stats where
  urgentCount : Nat
  waitingCount : Nat
  buriedCount : Nat
  reservedCount : Nat
  pauseCount : Nat
  totalJobsCount : Nat
  deriving DecidableEq, Repr

/-- The `opCount` map of src/main.go, one counter per command kind
(the map defaults every key to zero). -/
structure OpCount where
  put : Nat
  stats : Nat
  use : Nat
  quit : Nat
  unknown : Nat
  deriving DecidableEq, Repr

/-- The increment `opCount[t]++` on the counter map. -/
def incOp (t : OpType) (oc : OpCount) : OpCount :=
  match t with
  | .put => { oc with put := oc.put + 1 }
  | .stats => { oc with stats := oc.stats + 1 }
  | .use => { oc with use := oc.use + 1 }
  | .quit => { oc with quit := oc.quit + 1 }
  | .unknown => { oc with unknown := oc.unknown + 1 }

/-- The process-wide mutable globals of src/main.go: `opCount`,
`curConnCount`, `readyCount` and `globalStat`. -/
structure GState where
  opCount : OpCount
  curConnCount : Int
  readyCount : Nat
  globalStat : stats
  deriving DecidableEq, Repr

/-- Go zero values of all the globals at process start. -/
def initialGState : GState := ⟨⟨0, 0, 0, 0, 0⟩, 0, 0, ⟨0, 0, 0, 0, 0, 0⟩⟩

/-- `makeConn`'s effect on the globals: `curConnCount++`. -/
def makeConnG (g : GState) : GState := { g with curConnCount := g.curConnCount + 1 }

/-- `connClose`'s effect on the globals: `curConnCount = curConnCount - 1`. -/
def connCloseG (g : GState) : GState := { g with curConnCount := g.curConnCount - 1 }

/-- The `job` struct of src/main.go. -/
structure job where
  pri : Nat
  delay : Nat
  ttr : Nat
  bodySize : Nat
  body : List Char
  deriving DecidableEq, Repr

/-- `makeJob` from src/main.go: the body buffer is allocated zero-filled
with length `bodySize`. -/
def makeJob (pri delay ttr bodySize : Nat) : job :=
  ⟨pri, delay, ttr, bodySize, List.replicate bodySize (Char.ofNat 0)⟩

/-- `unicode.IsSpace` restricted to the characters Go's `bytes.Fields`
splits on (Latin-1 range). -/
def goIsSpace (c : Char) : Bool :=
  c = ' ' || c = '\t' || c = '\n' || c = Char.ofNat 11 || c = Char.ofNat 12 ||
    c = '\r' || c = Char.ofNat 133 || c = Char.ofNat 160

/-- Accumulator recursion behind `bytes.Fields`. -/
def fieldsAux : List Char → List Char → List (List Char)
  | [], acc => if acc.isEmpty then [] else [acc.reverse]
  | c :: rest, acc =>
    if goIsSpace c then
      if acc.isEmpty then fieldsAux rest [] else acc.reverse :: fieldsAux rest []
    else fieldsAux rest (c :: acc)

/-- `bytes.Fields` from the Go standard library: split around runs of
whitespace, dropping empty fields. -/
def fields (s : List Char) : List (List Char) := fieldsAux s []

/-- Numeric value of a digit string (base 10 accumulation). -/
def digitsToNat (s : List Char) : Nat := s.foldl (fun a c => a * 10 + (c.toNat - 48)) 0

/-- `strconv.ParseUint(s, 10, 32)`: succeeds exactly on a non-empty string
of decimal digits whose value fits in 32 bits. -/
def parseUint32 (s : List Char) : Option Nat :=
  if s.isEmpty then none
  else if s.all Char.isDigit then
    if digitsToNat s < 2 ^ 32 then some (digitsToNat s) else none
  else none

/-- Connection protocol states, mirroring `connState` in src/main.go. -/
inductive connState where
  | wantCommand
  | sendWord
  | sendJob
  | close
  deriving DecidableEq, Repr

/-- Result of one `doCmd` dispatch: the connection state it sets, the pending
reply bytes, the updated globals, the remaining input stream, and the
connection's `inJob` field after the dispatch. -/
structure CmdResult where
  state : connState
  reply : List Char
  g : GState
  input : List Char
  inJob : Option job
  deriving DecidableEq, Repr

/-- `getDelayedJobCount` from src/main.go: a constant 0 (FIXME in source). -/
def getDelayedJobCount : Nat := 0

/-- The `statsFmt` format string of src/main.go. -/
def statsFmt : List Char :=
  ("---\n" ++
    "current-jobs-urgent: %d\n" ++
    "current-jobs-ready: %d\n" ++
    "current-jobs-reserved: %d\n" ++
    "current-jobs-delayed: %d\n" ++
    "current-jobs-buried: %d\n" ++
    "cmd-put: %d\n" ++
    "cmd-use: %d\n" ++
    "cmd-stats: %d\n" ++
    "current-connections: %d\n").toList

/-- `fmt.Sprintf` restricted to the `%d` verb over integer arguments, the
only form the stats path uses. -/
def sprintfNums : List Char → List Int → List Char
  | '%' :: 'd' :: rest, n :: ns => (toString n).toList ++ sprintfNums rest ns
  | '%' :: 'd' :: rest, [] => ("%!d(MISSING)").toList ++ sprintfNums rest []
  | c :: rest, ns => c :: sprintfNums rest ns
  | [], _ => []

/-- `fmtStats` from src/main.go: renders `statsFmt` over the current
counters; the ready gauge reads the `readyCount` global and the delayed
gauge reads `getDelayedJobCount()`. -/
def fmtStats (g : GState) : List Char :=
  sprintfNums statsFmt
    [(g.globalStat.urgentCount : Int), (g.readyCount : Int),
      (g.globalStat.reservedCount : Int), (getDelayedJobCount : Int),
      (g.globalStat.buriedCount : Int), (g.opCount.put : Int),
      (g.opCount.use : Int), (g.opCount.stats : Int), g.curConnCount]

/-- `doStats` from src/main.go: reply `OK <report>\r\n` and move to the
`SendJob` state. -/
def doStats (g : GState) (input : List Char) : CmdResult :=
  ⟨.sendJob, ("OK ").toList ++ fmtStats g ++ crlf, g, input, none⟩

/-- `enqueueIncomingJob` from src/main.go: the connection's `inJob` is
cleared, the body must end in CR LF (else `EXPECTED_CRLF`), and on success
`totalJobsCount` is incremented and the reply is `INSERTED 1`. -/
def enqueueIncomingJob (j : job) (g : GState) (input : List Char) : CmdResult :=
  if endsWith crlf j.body then
    ⟨.sendWord, msgInsertedFmt 1,
      { g with globalStat := { g.globalStat with
          totalJobsCount := g.globalStat.totalJobsCount + 1 } },
      input, none⟩
  else
    ⟨.sendWord, msgExpectedCRLF, g, input, none⟩

/-- `doCmd` from src/main.go, as a function of the command line, the
globals and the remaining input stream. The `put` branch mirrors the
source exactly: five fields, four `ParseUint(_, 10, 32)` calls failing to
`BAD_FORMAT`, `opCount[opPut]++` after the parses, the `ttr` floor to
1000000000, a body buffer of `bodySize + 2` bytes filled by a single read
(short read replies `BAD_FORMAT`), then `enqueueIncomingJob`. -/
def doCmd (cmd : List Char) (g : GState) (input : List Char) : CmdResult :=
  match whichCmd cmd with
  | .put =>
    match fields cmd with
    | [_f0, f1, f2, f3, f4] =>
      match parseUint32 f1 with
      | none => ⟨.sendWord, msgBadFmt, g, input, none⟩
      | some pri =>
        match parseUint32 f2 with
        | none => ⟨.sendWord, msgBadFmt, g, input, none⟩
        | some delay =>
          match parseUint32 f3 with
          | none => ⟨.sendWord, msgBadFmt, g, input, none⟩
          | some ttr0 =>
            match parseUint32 f4 with
            | none => ⟨.sendWord, msgBadFmt, g, input, none⟩
            | some bodySize =>
              let g' := { g with opCount := incOp .put g.opCount }
              let ttr := if ttr0 < 1000000000 then 1000000000 else ttr0
              let j0 := makeJob pri delay ttr (bodySize + 2)
              let filled :=
                input.take (bodySize + 2) ++
                  List.replicate (bodySize + 2 - input.length) (Char.ofNat 0)
              let j := { j0 with body := filled }
              let nbRead := min (bodySize + 2) input.length
              let input' := input.drop (bodySize + 2)
              if nbRead ≠ bodySize + 2 then
                ⟨.sendWord, msgBadFmt, g', input', some j⟩
              else
                enqueueIncomingJob j g' input'
    | _ => ⟨.sendWord, msgBadFmt, g, input, none⟩
  | .stats =>
    doStats { g with opCount := incOp .stats g.opCount } input
  | .use =>
    ⟨.sendWord, ("USING ").toList ++ cmd.drop cmdUseLen ++ crlf,
      { g with opCount := incOp .use g.opCount }, input, none⟩
  | .quit => ⟨.close, [], g, input, none⟩
  | .unknown => ⟨.sendWord, msgUnknownCommand, g, input, none⟩

/-- Whether all four numeric fields of a `put` line parse, exactly the
condition under which `doCmd`'s put branch proceeds past argument
validation. -/
def putParseOk (cmd : List Char) : Bool :=
  match fields cmd with
  | [_f0, f1, f2, f3, f4] =>
    (parseUint32 f1).isSome && (parseUint32 f2).isSome &&
      (parseUint32 f3).isSome && (parseUint32 f4).isSome
  | _ => false

/-- `bufio.Reader.ReadBytes('\n')`: the line up to and including the first
newline, or failure when the stream ends with no newline. -/
def readLine : List Char → Option (List Char × List Char)
  | [] => none
  | c :: rest =>
    if c = '\n' then some ([c], rest)
    else
      match readLine rest with
      | none => none
      | some (l, r) => some (c :: l, r)

/-- One per-connection machine: protocol state, unread input bytes, bytes
written so far, the globals, and the pending reply. -/
structure Machine where
  state : connState
  input : List Char
  output : List Char
  g : GState
  reply : List Char
  deriving DecidableEq, Repr

/-- Observable events of one connection: a command line consumed, or a
reply written in full. -/
inductive Event where
  | readEv (cmd : List Char)
  | writeEv (msg : List Char)
  deriving DecidableEq, Repr

/-- `connData` from src/main.go: in `WantCommand` read one line and
dispatch it (EOF closes); in `SendWord`/`SendJob` write the whole pending
reply and return to `WantCommand` (`resetConn`). -/
def connData (m : Machine) : Machine × Option Event :=
  match m.state with
  | .wantCommand =>
    match readLine m.input with
    | none => ({ m with state := .close }, none)
    | some (line, rest) =>
      let r := doCmd line m.g rest
      ({ m with state := r.state, input := r.input, g := r.g, reply := r.reply },
        some (.readEv line))
  | .sendWord =>
    ({ m with state := .wantCommand, output := m.output ++ m.reply },
      some (.writeEv m.reply))
  | .sendJob =>
    ({ m with state := .wantCommand, output := m.output ++ m.reply },
      some (.writeEv m.reply))
  | .close => (m, none)

/-- `handleConn`'s loop: repeat `connData` until the `Close` state,
collecting the event trace. -/
def run : Nat → Machine → List Event
  | 0, _ => []
  | fuel + 1, m =>
    if m.state = connState.close then []
    else
      match connData m with
      | (m', none) => run fuel m'
      | (m', some e) => e :: run fuel m'

/-- Whether an event is a command-line read. -/
def isReadEv : Event → Bool
  | .readEv _ => true
  | .writeEv _ => false

/-- No two consecutive events of a trace are both reads: between any two
command reads a full reply write occurs. -/
def noTwoReads : List Event → Bool
  | a :: b :: rest => (!(isReadEv a && isReadEv b)) && noTwoReads (b :: rest)
  | _ => true

/-- The first event of a trace is not a read. -/
def headNotRead : List Event → Bool
  | .readEv _ :: _ => false
  | _ => true

/-- The four job-state gauges the core never writes: urgent, ready,
reserved and buried are all zero. -/
def gaugesZero (g : GState) : Prop :=
  g.globalStat.urgentCount = 0 ∧ g.readyCount = 0 ∧
    g.globalStat.reservedCount = 0 ∧ g.globalStat.buriedCount = 0

/-- Global states reachable from process start by any interleaving of
command dispatches, connection opens and connection closes. -/
inductive ReachableG : GState → Prop where
  | init : ReachableG initialGState
  | step (cmd : List Char) (g : GState) (input : List Char) :
      ReachableG g → ReachableG (doCmd cmd g input).g
  | connOpen (g : GState) : ReachableG g → ReachableG (makeConnG g)
  | connDone (g : GState) : ReachableG g → ReachableG (connCloseG g)

/-- Claim C3 counterexample: on a `stats` command from the initial state the
code replies `OK <report>\r\n` with no byte-count line, so the reply differs
from the claimed `OK <n>\r\n<n bytes of report>\r\n` framing even when the
report bytes themselves are taken from the code's own renderer. -/
theorem c3_counterexample :
    (doCmd ("stats\r\n".toList) initialGState []).reply ≠
      ("OK ").toList ++
        (toString (fmtStats (doCmd ("stats\r\n".toList) initialGState []).g).length).toList ++
        crlf ++ fmtStats (doCmd ("stats\r\n".toList) initialGState []).g ++ crlf := by
  decide

/-- Claim C4, code evaluated at the failing input `put 1 0 5 5\r\n`: the
stored job record carries `ttr = 1000000000`, not the parsed value 5, because
the source floors the parsed seconds field against the raw constant
1000000000. -/
theorem c4_code :
    (doCmd ("put 1 0 5 5\r\n".toList) initialGState []).inJob.map job.ttr =
        some 1000000000 ∧
      (doCmd ("put 1 0 5 5\r\n".toList) initialGState []).inJob.map job.ttr ≠
        some 5 := by
  decide

/-- Claim C5, code evaluated at the failing input `use foo\r\n`: the name
slice keeps the command line's CR LF, so the reply is `USING foo\r\n\r\n`,
not exactly `USING foo\r\n`. -/
theorem c5_code :
    (doCmd ("use foo\r\n".toList) initialGState []).reply =
        ("USING foo\r\n\r\n").toList ∧
      (doCmd ("use foo\r\n".toList) initialGState []).reply ≠
        ("USING foo\r\n").toList := by
  decide

/-- Claim C6 counterexample: the priority field `4294967296` (equal to two to
the 32nd power) is a decimal non-negative integer, yet its magnitude alone
makes `ParseUint(_, 10, 32)` fail and the submission is answered
`BAD_FORMAT`. -/
theorem c6_counterexample :
    ("4294967296".toList).all Char.isDigit = true ∧
      putParseOk ("put 4294967296 0 1 0\r\n".toList) = false ∧
      (doCmd ("put 4294967296 0 1 0\r\n".toList) initialGState []).reply =
        msgBadFmt := by
  decide

/-- Claim C7 counterexample: a `put` whose 7-byte body capture `helloXX` does
not end in CR LF is answered `EXPECTED_CRLF`, yet the `cmd-put` counter has
been incremented, because the source increments it right after argument
parsing and before body ingestion. -/
theorem c7_counterexample :
    (doCmd ("put 1 0 5 5\r\n".toList) initialGState ("helloXX".toList)).reply =
        msgExpectedCRLF ∧
      (doCmd ("put 1 0 5 5\r\n".toList) initialGState
          ("helloXX".toList)).g.opCount.put =
        initialGState.opCount.put + 1 := by
  decide

/-- Claim C8 counterexample: the line `statsx\r\n` has leading token
`statsx`, which is none of the keywords `put`, `stats`, `use`, `quit`, yet
prefix classification files it as a `stats` command and the reply is not
`UNKNOWN_COMMAND`. -/
theorem c8_counterexample :
    whichCmd ("statsx\r\n".toList) = OpType.stats ∧
      (fields ("statsx\r\n".toList)).head? = some ("statsx".toList) ∧
      ("statsx".toList ∉
        [("put").toList, ("stats").toList, ("use").toList, ("quit").toList]) ∧
      (doCmd ("statsx\r\n".toList) initialGState []).reply ≠
        msgUnknownCommand := by
  decide

/-- Claim C1: for a well-formed `put <priority> <delay> <ttr> <B>` command
followed by at least `B + 2` bytes of stream, exactly `B + 2` bytes are
consumed as the body, the reply is `INSERTED 1` exactly when the final two
consumed bytes are CR LF, and otherwise the reply is `EXPECTED_CRLF` and the
job is discarded (`inJob` cleared). -/
theorem c1 (cmd : List Char) (g : GState) (input : List Char)
    (f0 f1 f2 f3 f4 : List Char) (pri delay ttr0 B : Nat)
    (hw : whichCmd cmd = OpType.put)
    (hf : fields cmd = [f0, f1, f2, f3, f4])
    (h1 : parseUint32 f1 = some pri) (h2 : parseUint32 f2 = some delay)
    (h3 : parseUint32 f3 = some ttr0) (h4 : parseUint32 f4 = some B)
    (hlen : B + 2 ≤ input.length) :
    (doCmd cmd g input).input = input.drop (B + 2) ∧
      ((doCmd cmd g input).reply = msgInsertedFmt 1 ↔
        endsWith crlf (input.take (B + 2)) = true) ∧
      (endsWith crlf (input.take (B + 2)) = false →
        (doCmd cmd g input).reply = msgExpectedCRLF ∧
          (doCmd cmd g input).inJob = none) := by
  have hmin : min (B + 2) input.length = B + 2 := Nat.min_eq_left hlen
  have hrep : B + 2 - input.length = 0 := Nat.sub_eq_zero_of_le hlen
  simp only [doCmd, hw, hf, h1, h2, h3, h4, hmin, hrep, List.replicate_zero,
    List.append_nil, enqueueIncomingJob, ne_eq, not_true_eq_false, if_false,
    ite_false]
  cases hend : endsWith crlf (input.take (B + 2)) with
  | false => simp [hend]; decide
  | true => simp [hend]

/-- Claim C1 witness: `put 1 0 5 5\r\n` followed by the 7-byte body capture
`hello\r\n` consumes all 7 bytes and is answered `INSERTED 1`. -/
theorem c1_witness :
    (doCmd ("put 1 0 5 5\r\n".toList) initialGState
        ("hello\r\n".toList)).input = ("hello\r\n".toList).drop (5 + 2) ∧
      ((doCmd ("put 1 0 5 5\r\n".toList) initialGState
          ("hello\r\n".toList)).reply = msgInsertedFmt 1 ↔
        endsWith crlf (("hello\r\n".toList).take (5 + 2)) = true) ∧
      (endsWith crlf (("hello\r\n".toList).take (5 + 2)) = false →
        (doCmd ("put 1 0 5 5\r\n".toList) initialGState
            ("hello\r\n".toList)).reply = msgExpectedCRLF ∧
          (doCmd ("put 1 0 5 5\r\n".toList) initialGState
              ("hello\r\n".toList)).inJob = none) :=
  c1 ("put 1 0 5 5\r\n".toList) initialGState ("hello\r\n".toList)
    ("put".toList) ("1".toList) ("0".toList) ("5".toList) ("5".toList)
    1 0 5 5 (by decide) (by decide) (by decide) (by decide) (by decide)
    (by decide) (by decide)

/-- Claim C2: a `put` command with a missing or non-parsing numeric field is
answered exactly `BAD_FORMAT`, consumes no body bytes (the stream and the
globals are untouched), and after the pending reply is written the
connection is back in the `WantCommand` state. -/
theorem c2 (cmd : List Char) (g : GState) (input : List Char) (m : Machine)
    (hw : whichCmd cmd = OpType.put) (hp : putParseOk cmd = false)
    (hm1 : m.state = connState.sendWord) (hm2 : m.reply = msgBadFmt) :
    doCmd cmd g input = ⟨connState.sendWord, msgBadFmt, g, input, none⟩ ∧
      (connData m).1.state = connState.wantCommand ∧
      (connData m).1.output = m.output ++ msgBadFmt := by
  refine ⟨?_, ?_, ?_⟩
  · simp only [doCmd, hw]
    rcases hf : fields cmd with _ | ⟨f0, _ | ⟨f1, _ | ⟨f2, _ | ⟨f3, _ | ⟨f4, _ | ⟨f5, tl⟩⟩⟩⟩⟩⟩
    · rfl
    · rfl
    · rfl
    · rfl
    · rfl
    · simp only [putParseOk, hf] at hp
      rcases hq1 : parseUint32 f1 with _ | pri
      · simp [hq1]
      · rcases hq2 : parseUint32 f2 with _ | dl
        · simp [hq1, hq2]
        · rcases hq3 : parseUint32 f3 with _ | t3
          · simp [hq1, hq2, hq3]
          · rcases hq4 : parseUint32 f4 with _ | b4
            · simp [hq1, hq2, hq3, hq4]
            · simp [hq1, hq2, hq3, hq4] at hp
    · rfl
  · simp [connData, hm1]
  · simp [connData, hm1, hm2]

/-- Claim C2 witness: the scenario `put abc 0 5 5\r\n` is answered
`BAD_FORMAT` with the stream untouched, and the pending-reply write returns
the machine to `WantCommand`. -/
theorem c2_witness :
    doCmd ("put abc 0 5 5\r\n".toList) initialGState ("hello\r\n".toList) =
        ⟨connState.sendWord, msgBadFmt, initialGState, ("hello\r\n".toList), none⟩ ∧
      (connData ⟨connState.sendWord, [], [], initialGState, msgBadFmt⟩).1.state =
        connState.wantCommand ∧
      (connData ⟨connState.sendWord, [], [], initialGState, msgBadFmt⟩).1.output =
        (Machine.mk connState.sendWord [] [] initialGState msgBadFmt).output ++
          msgBadFmt :=
  c2 ("put abc 0 5 5\r\n".toList) initialGState ("hello\r\n".toList)
    ⟨connState.sendWord, [], [], initialGState, msgBadFmt⟩
    (by decide) (by decide) rfl rfl

/-- Rendering `statsFmt` substitutes the nine integers in template order. -/
theorem sprintfNums_statsFmt (a b c d e f p q r : Int) :
    sprintfNums statsFmt [a, b, c, d, e, f, p, q, r] =
      ("---\ncurrent-jobs-urgent: ").toList ++
        ((toString a).toList ++
        (("\ncurrent-jobs-ready: ").toList ++
        ((toString b).toList ++
        (("\ncurrent-jobs-reserved: ").toList ++
        ((toString c).toList ++
        (("\ncurrent-jobs-delayed: ").toList ++
        ((toString d).toList ++
        (("\ncurrent-jobs-buried: ").toList ++
        ((toString e).toList ++
        (("\ncmd-put: ").toList ++
        ((toString f).toList ++
        (("\ncmd-use: ").toList ++
        ((toString p).toList ++
        (("\ncmd-stats: ").toList ++
        ((toString q).toList ++
        (("\ncurrent-connections: ").toList ++
        ((toString r).toList ++
        ("\n").toList))))))))))))))))) := rfl

/-- Claim C3 as amended: the `stats` reply is `OK <report>\r\n` with no
byte-count line; the report is a `---` line followed by one `key: value`
line per field, newline-terminated, in the exact order current-jobs-urgent,
current-jobs-ready, current-jobs-reserved, current-jobs-delayed,
current-jobs-buried, cmd-put, cmd-use, cmd-stats, current-connections, with
the `cmd-stats` counter already incremented for the command itself. -/
theorem c3_amended (g : GState) (input : List Char) :
    (doCmd ("stats\r\n".toList) g input).reply =
      ("OK ").toList ++
        (("---\ncurrent-jobs-urgent: ").toList ++
        ((toString (g.globalStat.urgentCount : Int)).toList ++
        (("\ncurrent-jobs-ready: ").toList ++
        ((toString (g.readyCount : Int)).toList ++
        (("\ncurrent-jobs-reserved: ").toList ++
        ((toString (g.globalStat.reservedCount : Int)).toList ++
        (("\ncurrent-jobs-delayed: ").toList ++
        ((toString (getDelayedJobCount : Int)).toList ++
        (("\ncurrent-jobs-buried: ").toList ++
        ((toString (g.globalStat.buriedCount : Int)).toList ++
        (("\ncmd-put: ").toList ++
        ((toString (g.opCount.put : Int)).toList ++
        (("\ncmd-use: ").toList ++
        ((toString (g.opCount.use : Int)).toList ++
        (("\ncmd-stats: ").toList ++
        ((toString ((g.opCount.stats + 1 : Nat) : Int)).toList ++
        (("\ncurrent-connections: ").toList ++
        ((toString g.curConnCount).toList ++
        (("\n").toList ++ crlf))))))))))))))))))) := by
  have hw : whichCmd ("stats\r\n".toList) = OpType.stats := by decide
  simp only [doCmd, hw, doStats, fmtStats, incOp]
  rw [sprintfNums_statsFmt]
  simp [List.append_assoc]

/-- Claim C6 as amended: the priority field of a `put` is bounded by
`ParseUint(_, 10, 32)`. With the other three fields parsing, argument
validation succeeds exactly when the decimal priority value is below two to
the 32nd power; at or above that bound the magnitude alone forces the
`BAD_FORMAT` path. -/
theorem c6_amended (cmd f0 f1 f2 f3 f4 : List Char)
    (hf : fields cmd = [f0, f1, f2, f3, f4])
    (hne : f1 ≠ []) (hd : f1.all Char.isDigit = true)
    (h2 : (parseUint32 f2).isSome = true) (h3 : (parseUint32 f3).isSome = true)
    (h4 : (parseUint32 f4).isSome = true) :
    (putParseOk cmd = true ↔ digitsToNat f1 < 2 ^ 32) := by
  have hne' : f1.isEmpty = false := by
    cases f1 with
    | nil => exact absurd rfl hne
    | cons a t => rfl
  have hiff : (parseUint32 f1).isSome = true ↔ digitsToNat f1 < 2 ^ 32 := by
    unfold parseUint32
    rw [hne', hd]
    simp only [Bool.false_eq_true, if_false, if_true]
    split <;> simp_all
  rw [← hiff]
  simp [putParseOk, hf, h2, h3, h4]

/-- Claim C6 witness: the priority field `7` of `put 7 0 1 0\r\n` parses,
its value being below the 32-bit bound. -/
theorem c6_witness :
    putParseOk ("put 7 0 1 0\r\n".toList) = true ↔
      digitsToNat ("7".toList) < 2 ^ 32 :=
  c6_amended ("put 7 0 1 0\r\n".toList) ("put".toList) ("7".toList)
    ("0".toList) ("1".toList) ("0".toList) (by decide) (by decide) (by decide)
    (by decide) (by decide) (by decide)

/-- Claim C8 as amended: classification is prefix-based, matching the line
against `put `, `stats`, `use `, `quit` in that order; every line matching
none of these prefixes classifies as unknown, is answered exactly
`UNKNOWN_COMMAND` with nothing else changed, and after the reply write the
connection is open again in the `WantCommand` state. -/
theorem c8_amended (cmd : List Char) (g : GState) (input : List Char)
    (m : Machine)
    (h1 : startsWith cmdPut cmd = false) (h2 : startsWith cmdStats cmd = false)
    (h3 : startsWith cmdUse cmd = false) (h4 : startsWith cmdQuit cmd = false)
    (hm1 : m.state = connState.sendWord) (hm2 : m.reply = msgUnknownCommand) :
    whichCmd cmd = OpType.unknown ∧
      doCmd cmd g input = ⟨connState.sendWord, msgUnknownCommand, g, input, none⟩ ∧
      (connData m).1.state = connState.wantCommand ∧
      (connData m).1.output = m.output ++ msgUnknownCommand := by
  have hwc : whichCmd cmd = OpType.unknown := by simp [whichCmd, h1, h2, h3, h4]
  refine ⟨hwc, ?_, ?_, ?_⟩
  · simp [doCmd, hwc]
  · simp [connData, hm1]
  · simp [connData, hm1, hm2]

/-- Claim C8 witness: the scenario line `bogus\r\n` matches no keyword
prefix and is answered `UNKNOWN_COMMAND`, after which the machine is back in
`WantCommand`. -/
theorem c8_witness :
    whichCmd ("bogus\r\n".toList) = OpType.unknown ∧
      doCmd ("bogus\r\n".toList) initialGState [] =
        ⟨connState.sendWord, msgUnknownCommand, initialGState, [], none⟩ ∧
      (connData ⟨connState.sendWord, [], [], initialGState,
          msgUnknownCommand⟩).1.state = connState.wantCommand ∧
      (connData ⟨connState.sendWord, [], [], initialGState,
          msgUnknownCommand⟩).1.output =
        (Machine.mk connState.sendWord [] [] initialGState
            msgUnknownCommand).output ++ msgUnknownCommand :=
  c8_amended ("bogus\r\n".toList) initialGState []
    ⟨connState.sendWord, [], [], initialGState, msgUnknownCommand⟩
    (by decide) (by decide) (by decide) (by decide) rfl rfl

/-- Claim C7 as amended: for every `put` command the `cmd-put` counter is
incremented exactly when all four numeric fields parse (even when the body
read is short or the body lacks its CR LF terminator), while the total-jobs
counter is incremented exactly when the reply is `INSERTED 1`; on a parse
failure (`BAD_FORMAT` before body ingestion) both counters are unchanged. -/
theorem c7_amended (cmd : List Char) (g : GState) (input : List Char)
    (hw : whichCmd cmd = OpType.put) :
    (doCmd cmd g input).g.opCount.put =
        (if putParseOk cmd = true then g.opCount.put + 1 else g.opCount.put) ∧
      (doCmd cmd g input).g.globalStat.totalJobsCount =
        (if (doCmd cmd g input).reply = msgInsertedFmt 1 then
          g.globalStat.totalJobsCount + 1
        else g.globalStat.totalJobsCount) := by
  have hb : ¬(msgBadFmt = msgInsertedFmt 1) := by decide
  have he : ¬(msgExpectedCRLF = msgInsertedFmt 1) := by decide
  simp only [doCmd, hw]
  rcases hf : fields cmd with _ | ⟨f0, _ | ⟨f1, _ | ⟨f2, _ | ⟨f3, _ | ⟨f4, _ | ⟨f5, tl⟩⟩⟩⟩⟩⟩
  · simp [putParseOk, hf, hb]
  · simp [putParseOk, hf, hb]
  · simp [putParseOk, hf, hb]
  · simp [putParseOk, hf, hb]
  · simp [putParseOk, hf, hb]
  · rcases hq1 : parseUint32 f1 with _ | pri
    · simp [putParseOk, hf, hq1, hb]
    · rcases hq2 : parseUint32 f2 with _ | dl
      · simp [putParseOk, hf, hq1, hq2, hb]
      · rcases hq3 : parseUint32 f3 with _ | t3
        · simp [putParseOk, hf, hq1, hq2, hq3, hb]
        · rcases hq4 : parseUint32 f4 with _ | b4
          · simp [putParseOk, hf, hq1, hq2, hq3, hq4, hb]
          · by_cases hr : min (b4 + 2) input.length ≠ b4 + 2
            · simp [putParseOk, hf, hq1, hq2, hq3, hq4, hr, hb, incOp]
            · by_cases hend2 :
                endsWith crlf (input.take (b4 + 2) ++
                  List.replicate (b4 + 2 - input.length) (Char.ofNat 0)) = true
              · simp [putParseOk, hf, hq1, hq2, hq3, hq4, hr, hend2,
                  enqueueIncomingJob, incOp]
              · simp [putParseOk, hf, hq1, hq2, hq3, hq4, hr, hend2,
                  enqueueIncomingJob, incOp, he]
  · simp [putParseOk, hf, hb]

/-- Claim C7 witness: for the successful submission `put 1 0 5 5\r\n` with
body capture `hello\r\n` both counters show the expected increments. -/
theorem c7_witness :
    (doCmd ("put 1 0 5 5\r\n".toList) initialGState
          ("hello\r\n".toList)).g.opCount.put =
        (if putParseOk ("put 1 0 5 5\r\n".toList) = true then
          initialGState.opCount.put + 1
        else initialGState.opCount.put) ∧
      (doCmd ("put 1 0 5 5\r\n".toList) initialGState
            ("hello\r\n".toList)).g.globalStat.totalJobsCount =
        (if (doCmd ("put 1 0 5 5\r\n".toList) initialGState
              ("hello\r\n".toList)).reply = msgInsertedFmt 1 then
          initialGState.globalStat.totalJobsCount + 1
        else initialGState.globalStat.totalJobsCount) :=
  c7_amended ("put 1 0 5 5\r\n".toList) initialGState ("hello\r\n".toList)
    (by decide)

/-- Every dispatch leaves the connection in a reply-pending or closing
state, never directly back in `WantCommand`. -/
theorem doCmd_state_ne (cmd : List Char) (g : GState) (input : List Char) :
    (doCmd cmd g input).state ≠ connState.wantCommand := by
  simp only [doCmd, doStats, enqueueIncomingJob]
  repeat' split
  all_goals simp

/-- A trace started in a non-`WantCommand` state does not begin with a
command read. -/
theorem run_headNotRead (fuel : Nat) (m : Machine)
    (h : m.state ≠ connState.wantCommand) : headNotRead (run fuel m) = true := by
  cases fuel with
  | zero => rfl
  | succ n =>
    by_cases hc : m.state = connState.close
    · simp [run, hc]
      rfl
    · cases hs : m.state with
      | wantCommand => exact absurd hs h
      | sendWord => simp [run, hc, hs, connData, headNotRead]
      | sendJob => simp [run, hc, hs, connData, headNotRead]
      | close => exact absurd hs hc

/-- Prepending a write preserves read-alternation of a trace. -/
theorem noTwoReads_cons_write (w : List Char) (t : List Event)
    (h : noTwoReads t = true) : noTwoReads (Event.writeEv w :: t) = true := by
  cases t with
  | nil => rfl
  | cons b r => simp [noTwoReads, isReadEv, h]

/-- Prepending any event to a trace that does not start with a read
preserves read-alternation. -/
theorem noTwoReads_cons_of (a : Event) (t : List Event)
    (h1 : headNotRead t = true) (h2 : noTwoReads t = true) :
    noTwoReads (a :: t) = true := by
  cases t with
  | nil => rfl
  | cons b r =>
    cases b with
    | readEv c => simp [headNotRead] at h1
    | writeEv w => simp [noTwoReads, isReadEv, h2]

/-- Claim C9: in every connection trace, no two command reads are adjacent —
after each dispatched command the machine writes the entire pending reply
(one `writeEv`) before it returns to `WantCommand` and reads the next
command line, so two parses, or a parse and an outstanding reply write,
never overlap on one connection. -/
theorem c9 (fuel : Nat) (m : Machine) : noTwoReads (run fuel m) = true := by
  induction fuel generalizing m with
  | zero => rfl
  | succ n ih =>
    by_cases hc : m.state = connState.close
    · simp [run, hc]
      rfl
    · cases hs : m.state with
      | close => exact absurd hs hc
      | sendWord =>
        simp only [run, hc, if_false, hs, connData]
        exact noTwoReads_cons_write _ _ (ih _)
      | sendJob =>
        simp only [run, hc, if_false, hs, connData]
        exact noTwoReads_cons_write _ _ (ih _)
      | wantCommand =>
        simp only [run, hc, if_false, hs, connData]
        cases hr : readLine m.input with
        | none => simp only [hr]; exact ih _
        | some pr =>
          obtain ⟨line, rest⟩ := pr
          simp only [hr]
          refine noTwoReads_cons_of _ _ ?_ (ih _)
          exact run_headNotRead n _ (doCmd_state_ne line m.g rest)

/-- Dispatching any command preserves the zero job-state gauges: `doCmd`
only ever writes `opCount` and `totalJobsCount`. -/
theorem doCmd_gauges (cmd : List Char) (g : GState) (input : List Char)
    (h : gaugesZero g) : gaugesZero ((doCmd cmd g input).g) := by
  obtain ⟨h1, h2, h3, h4⟩ := h
  simp only [doCmd, doStats, enqueueIncomingJob]
  repeat' split
  all_goals simp_all [gaugesZero]

/-- Claim C10: in every reachable global state the five job-state gauges
rendered by the status report are zero — urgent, ready, reserved and buried
are never mutated by any operation, and the delayed gauge is the constant
`getDelayedJobCount = 0`. -/
theorem c10 (g : GState) (h : ReachableG g) :
    g.globalStat.urgentCount = 0 ∧ g.readyCount = 0 ∧
      g.globalStat.reservedCount = 0 ∧ getDelayedJobCount = 0 ∧
      g.globalStat.buriedCount = 0 := by
  have hz : gaugesZero g := by
    induction h with
    | init => exact ⟨rfl, rfl, rfl, rfl⟩
    | step cmd g input hg ihg => exact doCmd_gauges cmd g input ihg
    | connOpen g hg ihg => exact ihg
    | connDone g hg ihg => exact ihg
  obtain ⟨h1, h2, h3, h4⟩ := hz
  exact ⟨h1, h2, h3, rfl, h4⟩

/-- Claim C10 witness: the invariant holds at the initial global state. -/
theorem c10_witness :
    initialGState.globalStat.urgentCount = 0 ∧ initialGState.readyCount = 0 ∧
      initialGState.globalStat.reservedCount = 0 ∧ getDelayedJobCount = 0 ∧
      initialGState.globalStat.buriedCount = 0 :=
  c10 initialGState ReachableG.init

end Dispatch
